import Mathlib

/-!
Shallow embedding of the "Big Fish Eats Small Fish" arcade game simulation core
(src/App.tsx, with src/types.ts and src/constants.ts).

Modelling conventions:
* JavaScript numbers are modelled as exact rationals (ℚ); a decimal literal
  such as 0.1 denotes the exact rational 1/10.
* Every Math.random() draw is passed in explicitly as a field of a *Rand
  structure (an oracle); where the code relies on a draw lying in [0,1) this
  becomes an explicit hypothesis of the theorem using it.
* checkCollision compares Math.sqrt(dx*dx+dy*dy) < minDistance; over ℚ this is
  encoded as 0 < minDistance ∧ dx*dx+dy*dy < minDistance*minDistance, which is
  equivalent because dx*dx+dy*dy ≥ 0.
* The React refs (playerRef, enemiesRef, particlesRef, scoreRef, hasWonRef,
  difficultyRef, lastSpawnTime) and the status/score/showVictoryModal state
  become the fields of GameState; setStatus/setScore are field updates (within
  one tick the last setStatus call wins, as with batched React state).
* The audio collaborators (initAudio, startAmbience, stopAmbience,
  playEatSound) do not touch simulation state and are omitted.
* window.innerWidth / window.innerHeight (captured once as GAME_WIDTH /
  GAME_HEIGHT in src/constants.ts) are the fields of Config; window resizing
  is out of scope, so both names denote the same value.
-/

/-- Viewport dimensions: window.innerWidth and window.innerHeight
(= GAME_WIDTH and GAME_HEIGHT from src/constants.ts). -/
structure Config where
  innerWidth : ℚ
  innerHeight : ℚ
  deriving DecidableEq, Repr

/-- src/constants.ts: INITIAL_PLAYER_SIZE = 40. -/
def INITIAL_PLAYER_SIZE : ℚ := 40

/-- src/constants.ts: MAX_PLAYER_SIZE = 300. -/
def MAX_PLAYER_SIZE : ℚ := 300

/-- src/constants.ts: PLAYER_SPEED = 5. -/
def PLAYER_SPEED : ℚ := 5

/-- src/constants.ts: FISH_COLORS palette. -/
def FISH_COLORS : List String :=
  ["#fca5a5", "#bef264", "#67e8f9", "#c084fc", "#fbbf24", "#94a3b8"]

/-- src/constants.ts: PLAYER_COLOR. -/
def PLAYER_COLOR : String := "#fb923c"

/-- src/types.ts: the 'left' | 'right' facing of a fish. -/
inductive Direction where
  | left
  | right
  deriving DecidableEq, Repr

/-- src/types.ts: FishVariant = 'standard' | 'round' | 'sharp' | 'blocky'. -/
inductive FishVariant where
  | standard
  | round
  | sharp
  | blocky
  deriving DecidableEq, Repr

/-- src/types.ts: the 'player' | 'enemy' role of a FishEntity. -/
inductive FishRole where
  | player
  | enemy
  deriving DecidableEq, Repr

/-- src/types.ts: GameStatus = 'start' | 'playing' | 'paused' | 'gameover' | 'victory'. -/
inductive GameStatus where
  | start
  | playing
  | paused
  | gameover
  | victory
  deriving DecidableEq, Repr

/-- src/types.ts: FishEntity (the field named `type` there is `role` here;
`type` is not a usable field name in Lean). -/
structure FishEntity where
  id : String
  x : ℚ
  y : ℚ
  width : ℚ
  height : ℚ
  speed : ℚ
  direction : Direction
  color : String
  role : FishRole
  variant : FishVariant
  deriving DecidableEq, Repr

/-- src/types.ts: Particle. -/
structure Particle where
  id : ℚ
  x : ℚ
  y : ℚ
  size : ℚ
  speed : ℚ
  opacity : ℚ
  deriving DecidableEq, Repr

/-- The whole mutable session state of App.tsx: the refs playerRef,
enemiesRef, particlesRef, scoreRef, hasWonRef, difficultyRef, lastSpawnTime
plus the React state status and showVictoryModal (score and scoreRef always
hold the same value and appear once). -/
structure GameState where
  player : FishEntity
  enemies : List FishEntity
  particles : List Particle
  score : ℤ
  status : GameStatus
  hasWon : Bool
  showVictoryModal : Bool
  difficulty : ℚ
  lastSpawnTime : ℚ
  deriving DecidableEq, Repr

/-- The Math.random() draws consumed by one call of spawnEnemy
(src/App.tsx lines 148-217), in order of consumption. -/
structure SpawnRand where
  sideRoll : ℚ        -- isLeft = Math.random() > 0.5
  yRoll : ℚ           -- startY = Math.random() * (GAME_HEIGHT - 50) + 25
  spawnRoll : ℚ       -- const spawnRoll = Math.random()
  sizeRoll : ℚ        -- dangerous branch: sizeMultiplier = 1.1 + Math.random() * 0.8
  bigVariantRoll : ℚ  -- dangerous branch: Math.random() > 0.5 ? 'sharp' : 'blocky'
  foodSizeRoll : ℚ    -- food branch: 0.3 + Math.random() * 0.6
  foodVariantRoll : ℚ -- food branch: variants[Math.floor(Math.random() * 3)]
  speedRoll : ℚ       -- speed = (speedBase + Math.random() * 3) * ...
  idStr : String      -- Math.random().toString(36).substr(2, 9)
  colorRoll : ℚ       -- FISH_COLORS[Math.floor(Math.random() * FISH_COLORS.length)]
  deriving DecidableEq, Repr

/-- The Math.random() draws consumed by one call of spawnParticle
(src/App.tsx lines 219-229). -/
structure ParticleRand where
  idRoll : ℚ
  xRoll : ℚ
  sizeRoll : ℚ
  speedRoll : ℚ
  opacityRoll : ℚ
  deriving DecidableEq, Repr

/-- The random draws consumed by one tick of update: the 5% particle-spawn
roll (Math.random() < 0.05), the draws of the particle spawned then, and the
draws of the enemy spawn attempt if the spawn interval has elapsed. -/
structure TickRand where
  particleRoll : ℚ
  particleRand : ParticleRand
  spawnRand : SpawnRand
  deriving DecidableEq, Repr

/-- src/App.tsx line 158: the number of live enemies strictly wider than the
player ("dangerous" fish). -/
def dangerousCount (enemies : List FishEntity) (playerSize : ℚ) : ℕ :=
  (enemies.filter fun e => e.width > playerSize).length

/-- src/App.tsx line 162: the dangerous-fish cap 2 + floor(difficulty / 3). -/
def maxDangerousAllowed (diff : ℚ) : ℤ := 2 + ⌊diff / 3⌋

/-- src/App.tsx lines 148-217, spawnEnemy. Reads playerRef.current.width
(`playerSize`) and difficultyRef.current (`diff`); pushes at most one enemy
onto the enemy list. -/
def spawnEnemy (cfg : Config) (r : SpawnRand) (diff : ℚ) (playerSize : ℚ)
    (enemies : List FishEntity) : List FishEntity :=
  -- 1. GLOBAL POPULATION CAP: max 25 enemies total
  if enemies.length ≥ 25 then enemies
  else
    -- 2. DANGEROUS FISH CAP
    let dangerousFishCount := dangerousCount enemies playerSize
    let canSpawnDangerous := (dangerousFishCount : ℤ) < maxDangerousAllowed diff
    let isLeft := r.sideRoll > 0.5
    let direction := if isLeft then Direction.right else Direction.left
    let startX := if isLeft then -150 else cfg.innerWidth + 150
    let startY := r.yRoll * (cfg.innerHeight - 50) + 25
    let tryBigSpawn := r.spawnRoll < 0.1 + diff * 0.04
    let wv : ℚ × FishVariant :=
      if tryBigSpawn ∧ canSpawnDangerous then
        -- Spawn Dangerous Fish: size 1.1x to 1.9x of player
        (playerSize * (1.1 + r.sizeRoll * 0.8),
         if r.bigVariantRoll > 0.5 then FishVariant.sharp else FishVariant.blocky)
      else
        -- Spawn Food: size between 0.3x and 0.9x of player, at least 15
        (max 15 (playerSize * (0.3 + r.foodSizeRoll * 0.6)),
         ([FishVariant.round, FishVariant.standard, FishVariant.blocky].getD
            (⌊r.foodVariantRoll * 3⌋).toNat FishVariant.standard))
    let width := wv.1
    let height := width * 0.6
    let speedBase := 2 + diff * 0.3
    let speed := (speedBase + r.speedRoll * 3) * (cfg.innerWidth / 1920)
    let newEnemy : FishEntity :=
      { id := r.idStr, x := startX, y := startY, width := width, height := height,
        speed := speed, direction := direction,
        color := FISH_COLORS.getD (⌊r.colorRoll * 6⌋).toNat PLAYER_COLOR,
        role := FishRole.enemy, variant := wv.2 }
    enemies ++ [newEnemy]

/-- src/App.tsx lines 219-229, spawnParticle. -/
def spawnParticle (cfg : Config) (r : ParticleRand) : Particle :=
  { id := r.idRoll, x := r.xRoll * cfg.innerWidth, y := cfg.innerHeight + 20,
    size := r.sizeRoll * 5 + 2, speed := r.speedRoll * 2 + 1,
    opacity := r.opacityRoll * 0.5 + 0.1 }

/-- src/App.tsx lines 231-239, checkCollision: center distance below
0.6-scaled average width (the sqrt comparison squared, see file header). -/
def checkCollision (r1 r2 : FishEntity) : Bool :=
  let dx := (r1.x + r1.width / 2) - (r2.x + r2.width / 2)
  let dy := (r1.y + r1.height / 2) - (r2.y + r2.height / 2)
  let minDistance := (r1.width * 0.6 + r2.width * 0.6) / 2
  decide (0 < minDistance ∧ dx * dx + dy * dy < minDistance * minDistance)

/-- src/App.tsx lines 281-296 (part 1 of update): accumulate ±speed per held
key, set facing, clamp to the viewport. keysPressed is the set of currently
held key strings. -/
def movePlayer (cfg : Config) (keys : List String) (player : FishEntity) : FishEntity :=
  let up := keys.contains "ArrowUp" || keys.contains "w"
  let down := keys.contains "ArrowDown" || keys.contains "s"
  let left := keys.contains "ArrowLeft" || keys.contains "a"
  let right := keys.contains "ArrowRight" || keys.contains "d"
  let dy : ℚ := (if up then -player.speed else 0) + (if down then player.speed else 0)
  let dx : ℚ := (if left then -player.speed else 0) + (if right then player.speed else 0)
  let direction := if right then Direction.right
                   else if left then Direction.left else player.direction
  { player with
    x := max 0 (min (cfg.innerWidth - player.width) (player.x + dx)),
    y := max 0 (min (cfg.innerHeight - player.height) (player.y + dy)),
    direction := direction }

/-- src/App.tsx lines 316-318: advance an enemy one tick along its stored
direction. -/
def moveEnemy (e : FishEntity) : FishEntity :=
  if e.direction = Direction.right then { e with x := e.x + e.speed }
  else { e with x := e.x - e.speed }

/-- src/App.tsx lines 320-326: an (already moved) enemy is off-screen and due
for removal. -/
def offscreen (cfg : Config) (e : FishEntity) : Bool :=
  (decide (e.direction = Direction.right) && decide (e.x > cfg.innerWidth + 200)) ||
  (decide (e.direction = Direction.left) && decide (e.x < -200))

/-- The accumulator of the enemiesRef.current.forEach loop of update
(src/App.tsx lines 313-358): the in-place-mutated player/score/status/hasWon
refs, the enemiesToRemove id set (as a list), and the enemies as mutated so
far (`moved`, in iteration order). -/
structure ResolveState where
  player : FishEntity
  score : ℤ
  status : GameStatus
  hasWon : Bool
  showVictoryModal : Bool
  toRemove : List String
  moved : List FishEntity
  deriving DecidableEq, Repr

/-- src/App.tsx lines 315-358: the body of the forEach over enemies — move,
despawn test, collision test, then eat (grow + score + one-shot win check) or
die. -/
def processEnemy (cfg : Config) (diff : ℚ) (rs : ResolveState)
    (enemy : FishEntity) : ResolveState :=
  let e := moveEnemy enemy
  let rs1 := { rs with moved := rs.moved ++ [e] }
  let rs2 := if offscreen cfg e then { rs1 with toRemove := rs1.toRemove ++ [e.id] }
             else rs1
  if checkCollision rs2.player e then
    if e.width ≤ rs2.player.width then
      -- EAT: growth is 0.1 of the enemy width, height re-derived
      let growth := e.width * 0.1
      let width := rs2.player.width + growth
      let player := { rs2.player with width := width, height := width * 0.6 }
      let points : ℤ := ⌊e.width * 10 * diff⌋
      let rs3 := { rs2 with
        toRemove := rs2.toRemove ++ [e.id],
        player := player,
        score := rs2.score + points }
      -- WIN CONDITION (one-time trigger)
      if MAX_PLAYER_SIZE ≤ width ∧ rs3.hasWon = false then
        { rs3 with hasWon := true, status := GameStatus.paused,
                   showVictoryModal := true }
      else rs3
    else
      -- DIE
      { rs2 with status := GameStatus.gameover }
  else rs2

/-- src/App.tsx lines 309-311: advance particles, drop those above y = -50. -/
def movedParticles (ps : List Particle) : List Particle :=
  (ps.map fun p => { p with y := p.y - p.speed }).filter fun p => decide (p.y > -50)

/-- src/App.tsx lines 276-363, update: one simulation tick. Returns the state
unchanged when status ≠ 'playing'; otherwise applies input, the gated enemy
spawn, particle motion and the 5% particle spawn, the collision/resolution
pass, and the lazy purge of removed enemies. -/
def update (cfg : Config) (keys : List String) (time : ℚ) (rand : TickRand)
    (s : GameState) : GameState :=
  if s.status ≠ GameStatus.playing then s
  else
    -- 1. Update Player
    let player := movePlayer cfg keys s.player
    -- 2. Spawn Enemies
    let spawnInterval := max 600 (1600 - s.difficulty * 100)
    let doSpawn := time - s.lastSpawnTime > spawnInterval
    let enemies := if doSpawn then
        spawnEnemy cfg rand.spawnRand s.difficulty player.width s.enemies
      else s.enemies
    -- 3. Update Enemies & Particles
    let particles := movedParticles s.particles
    let particles := if rand.particleRoll < 0.05 then
        particles ++ [spawnParticle cfg rand.particleRand]
      else particles
    let rs := enemies.foldl (processEnemy cfg s.difficulty)
      { player := player, score := s.score, status := s.status,
        hasWon := s.hasWon, showVictoryModal := s.showVictoryModal,
        toRemove := [], moved := [] }
    { s with player := rs.player,
             enemies := rs.moved.filter (fun e => !(rs.toRemove.contains e.id)),
             particles := particles,
             score := rs.score, status := rs.status, hasWon := rs.hasWon,
             showVictoryModal := rs.showVictoryModal,
             lastSpawnTime := if doSpawn then time else s.lastSpawnTime }

/-- src/App.tsx lines 17-28 and 247-258: the freshly reset player entity. -/
def initialPlayer (cfg : Config) : FishEntity :=
  { id := "player", x := cfg.innerWidth / 2, y := cfg.innerHeight / 2,
    width := INITIAL_PLAYER_SIZE, height := INITIAL_PLAYER_SIZE * 0.6,
    speed := PLAYER_SPEED, direction := Direction.left, color := PLAYER_COLOR,
    role := FishRole.player, variant := FishVariant.standard }

/-- src/App.tsx lines 241-267, resetGame: sync difficultyRef from the
difficulty state (`diff` here), clear the win flag and the victory modal,
reset the player, empty the enemies, zero the score, set status playing.
Note: particlesRef and lastSpawnTime are not touched by resetGame. -/
def resetGame (cfg : Config) (diff : ℚ) (s : GameState) : GameState :=
  { s with difficulty := diff, hasWon := false, showVictoryModal := false,
           player := initialPlayer cfg, enemies := [], score := 0,
           status := GameStatus.playing }

/-! ### Basic facts about enemy movement and the per-enemy resolution step -/

lemma moveEnemy_width (e : FishEntity) : (moveEnemy e).width = e.width := by
  unfold moveEnemy; split <;> rfl

lemma moveEnemy_id (e : FishEntity) : (moveEnemy e).id = e.id := by
  unfold moveEnemy; split <;> rfl

lemma processEnemy_eat (cfg : Config) (d : ℚ) (rs : ResolveState) (enemy : FishEntity)
    (hcol : checkCollision rs.player (moveEnemy enemy) = true)
    (hle : (moveEnemy enemy).width ≤ rs.player.width) :
    (processEnemy cfg d rs enemy).player.width
        = rs.player.width + enemy.width * 0.1 ∧
    (processEnemy cfg d rs enemy).player.height
        = (rs.player.width + enemy.width * 0.1) * 0.6 ∧
    (processEnemy cfg d rs enemy).score = rs.score + ⌊enemy.width * 10 * d⌋ ∧
    enemy.id ∈ (processEnemy cfg d rs enemy).toRemove := by
  have hw := moveEnemy_width enemy
  have hi := moveEnemy_id enemy
  simp only [processEnemy]
  split_ifs <;> simp_all

lemma processEnemy_die (cfg : Config) (d : ℚ) (rs : ResolveState) (enemy : FishEntity)
    (hcol : checkCollision rs.player (moveEnemy enemy) = true)
    (hgt : rs.player.width < (moveEnemy enemy).width) :
    (processEnemy cfg d rs enemy).status = GameStatus.gameover ∧
    (processEnemy cfg d rs enemy).score = rs.score ∧
    (processEnemy cfg d rs enemy).player = rs.player ∧
    (processEnemy cfg d rs enemy).hasWon = rs.hasWon := by
  simp only [processEnemy]
  split_ifs <;>
    first
      | exact absurd hgt (not_lt.mpr ‹(moveEnemy enemy).width ≤ rs.player.width›)
      | simp_all

/-! ### Concrete fixtures used by the witnesses -/

/-- A concrete 1920x1080 viewport. -/
def cfg0 : Config := { innerWidth := 1920, innerHeight := 1080 }

/-- A player of the initial width 40 sitting at the origin. -/
def player40 : FishEntity :=
  { id := "player", x := 0, y := 0, width := 40, height := 24, speed := 5,
    direction := Direction.left, color := PLAYER_COLOR, role := FishRole.player,
    variant := FishVariant.standard }

/-- Resolution-loop accumulator for player40, score 0, nothing processed yet. -/
def rs40 : ResolveState :=
  { player := player40, score := 0, status := GameStatus.playing, hasWon := false,
    showVictoryModal := false, toRemove := [], moved := [] }

/-- A width-20 food enemy whose center coincides with player40's center. -/
def enemy20 : FishEntity :=
  { id := "food20", x := 10, y := 6, width := 20, height := 12, speed := 0,
    direction := Direction.left, color := "#fca5a5", role := FishRole.enemy,
    variant := FishVariant.round }

/-- A width-80 dangerous enemy whose center coincides with player40's center. -/
def enemy80 : FishEntity :=
  { id := "big80", x := -20, y := -12, width := 80, height := 48, speed := 0,
    direction := Direction.left, color := "#94a3b8", role := FishRole.enemy,
    variant := FishVariant.sharp }

/-- A TickRand with every roll 0 (particle roll 0 < 0.05 would spawn). -/
def rand0 : TickRand :=
  { particleRoll := 0,
    particleRand := { idRoll := 0, xRoll := 0, sizeRoll := 0, speedRoll := 0,
                      opacityRoll := 0 },
    spawnRand := { sideRoll := 0, yRoll := 0, spawnRoll := 1/2, sizeRoll := 0,
                   bigVariantRoll := 0, foodSizeRoll := 0, foodVariantRoll := 0,
                   speedRoll := 0, idStr := "spawned01", colorRoll := 0 } }

/-- A session state on the start screen with player40 and nothing else. -/
def sStart : GameState :=
  { player := player40, enemies := [], particles := [], score := 0,
    status := GameStatus.start, hasWon := false, showVictoryModal := false,
    difficulty := 1, lastSpawnTime := 0 }

/-! ### Claim theorems -/

/-- Claim C1: when the player collides with an enemy whose width is at most the
player's width, the enemy is marked for removal, the player's width grows by
exactly 0.1 times the enemy's width, the height is re-derived as 0.6 times the
new width, and floor(enemy.width * 10 * difficulty) points are added to the
score. -/
theorem eat_growth_and_scoring (cfg : Config) (d : ℚ) (rs : ResolveState)
    (enemy : FishEntity)
    (hcol : checkCollision rs.player (moveEnemy enemy) = true)
    (hle : (moveEnemy enemy).width ≤ rs.player.width) :
    (processEnemy cfg d rs enemy).player.width
        = rs.player.width + enemy.width * 0.1 ∧
    (processEnemy cfg d rs enemy).player.height
        = (processEnemy cfg d rs enemy).player.width * 0.6 ∧
    (processEnemy cfg d rs enemy).score = rs.score + ⌊enemy.width * 10 * d⌋ ∧
    enemy.id ∈ (processEnemy cfg d rs enemy).toRemove := by
  obtain ⟨h1, h2, h3, h4⟩ := processEnemy_eat cfg d rs enemy hcol hle
  exact ⟨h1, by rw [h2, h1], h3, h4⟩

/-- Witness for C1 at the spec scenario: difficulty 1, player width 40, enemy
width 20 (growth 2, new width 42, 200 points). -/
theorem eat_growth_and_scoring_witness :
    (checkCollision rs40.player (moveEnemy enemy20) = true ∧
     (moveEnemy enemy20).width ≤ rs40.player.width) ∧
    ((processEnemy cfg0 1 rs40 enemy20).player.width
        = rs40.player.width + enemy20.width * 0.1 ∧
     (processEnemy cfg0 1 rs40 enemy20).player.height
        = (processEnemy cfg0 1 rs40 enemy20).player.width * 0.6 ∧
     (processEnemy cfg0 1 rs40 enemy20).score
        = rs40.score + ⌊enemy20.width * 10 * (1:ℚ)⌋ ∧
     enemy20.id ∈ (processEnemy cfg0 1 rs40 enemy20).toRemove) :=
  ⟨⟨by norm_num [checkCollision, moveEnemy, rs40, player40, enemy20, enemy80], by norm_num [checkCollision, moveEnemy, rs40, player40, enemy20, enemy80]⟩,
   eat_growth_and_scoring cfg0 1 rs40 enemy20 (by norm_num [checkCollision, moveEnemy, rs40, player40, enemy20, enemy80]) (by norm_num [checkCollision, moveEnemy, rs40, player40, enemy20, enemy80])⟩

/-- Claim C3: a collision with a strictly wider enemy sets the status to
gameover and leaves the cumulative score unchanged. -/
theorem die_on_larger_enemy (cfg : Config) (d : ℚ) (rs : ResolveState)
    (enemy : FishEntity)
    (hcol : checkCollision rs.player (moveEnemy enemy) = true)
    (hgt : rs.player.width < (moveEnemy enemy).width) :
    (processEnemy cfg d rs enemy).status = GameStatus.gameover ∧
    (processEnemy cfg d rs enemy).score = rs.score :=
  ⟨(processEnemy_die cfg d rs enemy hcol hgt).1,
   (processEnemy_die cfg d rs enemy hcol hgt).2.1⟩

/-- Witness for C3 at the spec scenario: player width 40 colliding with enemy
width 80. -/
theorem die_on_larger_enemy_witness :
    (checkCollision rs40.player (moveEnemy enemy80) = true ∧
     rs40.player.width < (moveEnemy enemy80).width) ∧
    ((processEnemy cfg0 1 rs40 enemy80).status = GameStatus.gameover ∧
     (processEnemy cfg0 1 rs40 enemy80).score = rs40.score) :=
  ⟨⟨by norm_num [checkCollision, moveEnemy, rs40, player40, enemy20, enemy80], by norm_num [checkCollision, moveEnemy, rs40, player40, enemy20, enemy80]⟩,
   die_on_larger_enemy cfg0 1 rs40 enemy80 (by norm_num [checkCollision, moveEnemy, rs40, player40, enemy20, enemy80]) (by norm_num [checkCollision, moveEnemy, rs40, player40, enemy20, enemy80])⟩

/-- Claim C4: a tick invoked while the status is not 'playing' leaves the
whole session state unchanged. -/
theorem tick_frozen_outside_playing (cfg : Config) (keys : List String)
    (time : ℚ) (rand : TickRand) (s : GameState)
    (h : s.status ≠ GameStatus.playing) :
    update cfg keys time rand s = s := by
  simp [update, h]

/-- Witness for C4: a tick on the start screen changes nothing. -/
theorem tick_frozen_outside_playing_witness :
    sStart.status ≠ GameStatus.playing ∧ update cfg0 [] 0 rand0 sStart = sStart :=
  ⟨by decide, tick_frozen_outside_playing cfg0 [] 0 rand0 sStart (by decide)⟩

/-! ### Status and win-flag behaviour of the resolution step -/

lemma processEnemy_eat_nowin (cfg : Config) (d : ℚ) (rs : ResolveState)
    (enemy : FishEntity)
    (hcol : checkCollision rs.player (moveEnemy enemy) = true)
    (hle : (moveEnemy enemy).width ≤ rs.player.width)
    (hnw : ¬(MAX_PLAYER_SIZE ≤ rs.player.width + (moveEnemy enemy).width * 0.1 ∧
             rs.hasWon = false)) :
    (processEnemy cfg d rs enemy).status = rs.status ∧
    (processEnemy cfg d rs enemy).hasWon = rs.hasWon := by
  simp only [processEnemy]
  split_ifs <;> simp_all

lemma processEnemy_eat_win (cfg : Config) (d : ℚ) (rs : ResolveState)
    (enemy : FishEntity)
    (hcol : checkCollision rs.player (moveEnemy enemy) = true)
    (hle : (moveEnemy enemy).width ≤ rs.player.width)
    (hwin : MAX_PLAYER_SIZE ≤ rs.player.width + (moveEnemy enemy).width * 0.1)
    (hnot : rs.hasWon = false) :
    (processEnemy cfg d rs enemy).hasWon = true ∧
    (processEnemy cfg d rs enemy).status = GameStatus.paused := by
  simp only [processEnemy]
  split_ifs <;> simp_all

lemma processEnemy_winFire_iff (cfg : Config) (d : ℚ) (rs : ResolveState)
    (enemy : FishEntity) :
    ((processEnemy cfg d rs enemy).hasWon = true ∧ rs.hasWon = false) ↔
      (checkCollision rs.player (moveEnemy enemy) = true ∧
       (moveEnemy enemy).width ≤ rs.player.width ∧
       MAX_PLAYER_SIZE ≤ rs.player.width + (moveEnemy enemy).width * 0.1 ∧
       rs.hasWon = false) := by
  simp only [processEnemy]
  split_ifs <;> simp_all

lemma processEnemy_hasWon_mono (cfg : Config) (d : ℚ) (rs : ResolveState)
    (enemy : FishEntity) (h : rs.hasWon = true) :
    (processEnemy cfg d rs enemy).hasWon = true := by
  simp only [processEnemy]
  split_ifs <;> simp_all

lemma foldl_processEnemy_hasWon_mono (cfg : Config) (d : ℚ)
    (es : List FishEntity) :
    ∀ rs : ResolveState, rs.hasWon = true →
      (es.foldl (processEnemy cfg d) rs).hasWon = true := by
  induction es with
  | nil => intro rs h; simpa using h
  | cons e es ih =>
      intro rs h
      exact ih _ (processEnemy_hasWon_mono cfg d rs e h)

/-- Number of times the resolution loop takes the win transition (the win
flag flips from unset to set) while folding over a list of enemies. -/
def countWinFires (cfg : Config) (d : ℚ) (rs : ResolveState) :
    List FishEntity → ℕ
  | [] => 0
  | e :: es =>
      (if (processEnemy cfg d rs e).hasWon = true ∧ rs.hasWon = false
       then 1 else 0)
      + countWinFires cfg d (processEnemy cfg d rs e) es

lemma countWinFires_of_won (cfg : Config) (d : ℚ) (es : List FishEntity) :
    ∀ rs : ResolveState, rs.hasWon = true → countWinFires cfg d rs es = 0 := by
  induction es with
  | nil => intro rs _; rfl
  | cons e es ih =>
      intro rs h
      have h' := processEnemy_hasWon_mono cfg d rs e h
      simp [countWinFires, h, ih _ h']

lemma countWinFires_le_one (cfg : Config) (d : ℚ) (es : List FishEntity) :
    ∀ rs : ResolveState, countWinFires cfg d rs es ≤ 1 := by
  induction es with
  | nil => intro rs; simp [countWinFires]
  | cons e es ih =>
      intro rs
      by_cases hf : (processEnemy cfg d rs e).hasWon = true ∧ rs.hasWon = false
      · have := countWinFires_of_won cfg d es (processEnemy cfg d rs e) hf.1
        simp [countWinFires, hf, this]
      · simpa [countWinFires, hf] using ih (processEnemy cfg d rs e)

lemma update_hasWon_mono (cfg : Config) (keys : List String) (time : ℚ)
    (rand : TickRand) (s : GameState) (h : s.hasWon = true) :
    (update cfg keys time rand s).hasWon = true := by
  simp only [update]
  split_ifs <;>
    first
      | exact h
      | exact foldl_processEnemy_hasWon_mono cfg s.difficulty _ _ h

/-- A player one eat away from the win threshold (width 295). -/
def player295 : FishEntity := { player40 with width := 295, height := 177 }

/-- Resolution-loop accumulator for player295, win flag still unset. -/
def rs295 : ResolveState := { rs40 with player := player295 }

/-- A width-60 food enemy whose center coincides with player295's center. -/
def enemy60 : FishEntity :=
  { id := "food60", x := 235/2, y := 141/2, width := 60, height := 36, speed := 0,
    direction := Direction.left, color := "#bef264", role := FishRole.enemy,
    variant := FishVariant.standard }

/-- Claim C2: the win transition (status paused, win flag set) fires at most
once per resolution pass; it is taken exactly when an eat raises the player's
width to at least MAX_PLAYER_SIZE (= 300) while the win flag is unset, it then
sets status to paused, and once the flag is set no later tick clears it. -/
theorem win_fires_at_most_once (cfg : Config) (d : ℚ) :
    (∀ (rs : ResolveState) (es : List FishEntity),
        countWinFires cfg d rs es ≤ 1) ∧
    (∀ (rs : ResolveState) (enemy : FishEntity),
        ((processEnemy cfg d rs enemy).hasWon = true ∧ rs.hasWon = false) ↔
          (checkCollision rs.player (moveEnemy enemy) = true ∧
           (moveEnemy enemy).width ≤ rs.player.width ∧
           MAX_PLAYER_SIZE ≤ rs.player.width + (moveEnemy enemy).width * 0.1 ∧
           rs.hasWon = false)) ∧
    (∀ (rs : ResolveState) (enemy : FishEntity),
        (processEnemy cfg d rs enemy).hasWon = true → rs.hasWon = false →
          (processEnemy cfg d rs enemy).status = GameStatus.paused) ∧
    (∀ (keys : List String) (time : ℚ) (rand : TickRand) (s : GameState),
        s.hasWon = true → (update cfg keys time rand s).hasWon = true) := by
  refine ⟨fun rs es => countWinFires_le_one cfg d es rs,
          fun rs enemy => processEnemy_winFire_iff cfg d rs enemy,
          fun rs enemy hw hn => ?_,
          fun keys time rand s h => update_hasWon_mono cfg keys time rand s h⟩
  obtain ⟨hcol, hle, hwin, hnot⟩ :=
    (processEnemy_winFire_iff cfg d rs enemy).mp ⟨hw, hn⟩
  exact (processEnemy_eat_win cfg d rs enemy hcol hle hwin hnot).2

/-- Witness for C2: a width-295 player eating a width-60 enemy crosses the
300 threshold and flips the win flag. -/
theorem win_fires_at_most_once_witness :
    (processEnemy cfg0 1 rs295 enemy60).hasWon = true ∧ rs295.hasWon = false :=
  ((win_fires_at_most_once cfg0 1).2.1 rs295 enemy60).mpr
    (by norm_num [checkCollision, moveEnemy, rs295, rs40, player295, player40,
                  enemy60, MAX_PLAYER_SIZE])

/-- Claim C9: resolution does not halt on a lethal collision — an eatable
enemy processed after a death-triggering one still grows the player and still
adds its points, while the status stays gameover (the playing gate is only
checked at tick entry). -/
theorem post_death_eat_still_processed (cfg : Config) (d : ℚ)
    (rs : ResolveState) (e1 e2 : FishEntity)
    (h1col : checkCollision rs.player (moveEnemy e1) = true)
    (h1gt : rs.player.width < (moveEnemy e1).width)
    (h2col : checkCollision rs.player (moveEnemy e2) = true)
    (h2le : (moveEnemy e2).width ≤ rs.player.width)
    (hnowin : rs.player.width + (moveEnemy e2).width * 0.1 < MAX_PLAYER_SIZE) :
    (processEnemy cfg d (processEnemy cfg d rs e1) e2).status
        = GameStatus.gameover ∧
    (processEnemy cfg d (processEnemy cfg d rs e1) e2).player.width
        = rs.player.width + e2.width * 0.1 ∧
    (processEnemy cfg d (processEnemy cfg d rs e1) e2).score
        = rs.score + ⌊e2.width * 10 * d⌋ := by
  obtain ⟨hst, hsc, hpl, hhw⟩ := processEnemy_die cfg d rs e1 h1col h1gt
  set rs1 := processEnemy cfg d rs e1 with hrs1
  have h2col' : checkCollision rs1.player (moveEnemy e2) = true := by
    rw [hpl]; exact h2col
  have h2le' : (moveEnemy e2).width ≤ rs1.player.width := by
    rw [hpl]; exact h2le
  obtain ⟨hw, hh, hs, hr⟩ := processEnemy_eat cfg d rs1 e2 h2col' h2le'
  have hnw : ¬(MAX_PLAYER_SIZE ≤ rs1.player.width + (moveEnemy e2).width * 0.1 ∧
               rs1.hasWon = false) := by
    rw [hpl]
    intro hc
    exact absurd hnowin (not_lt.mpr hc.1)
  have hstat := (processEnemy_eat_nowin cfg d rs1 e2 h2col' h2le' hnw).1
  refine ⟨?_, ?_, ?_⟩
  · rw [hstat, hst]
  · rw [hw, hpl]
  · rw [hs, hsc]

/-- Witness for C9: a lethal width-80 collision followed in the same pass by a
width-20 eat; the eat still grows the player to 42 and still scores. -/
theorem post_death_eat_still_processed_witness :
    (checkCollision rs40.player (moveEnemy enemy80) = true ∧
     rs40.player.width < (moveEnemy enemy80).width ∧
     checkCollision rs40.player (moveEnemy enemy20) = true ∧
     (moveEnemy enemy20).width ≤ rs40.player.width ∧
     rs40.player.width + (moveEnemy enemy20).width * 0.1 < MAX_PLAYER_SIZE) ∧
    ((processEnemy cfg0 1 (processEnemy cfg0 1 rs40 enemy80) enemy20).status
        = GameStatus.gameover ∧
     (processEnemy cfg0 1 (processEnemy cfg0 1 rs40 enemy80) enemy20).player.width
        = rs40.player.width + enemy20.width * 0.1 ∧
     (processEnemy cfg0 1 (processEnemy cfg0 1 rs40 enemy80) enemy20).score
        = rs40.score + ⌊enemy20.width * 10 * (1:ℚ)⌋) := by
  have hyp : checkCollision rs40.player (moveEnemy enemy80) = true ∧
      rs40.player.width < (moveEnemy enemy80).width ∧
      checkCollision rs40.player (moveEnemy enemy20) = true ∧
      (moveEnemy enemy20).width ≤ rs40.player.width ∧
      rs40.player.width + (moveEnemy enemy20).width * 0.1 < MAX_PLAYER_SIZE := by
    norm_num [checkCollision, moveEnemy, rs40, player40, enemy20, enemy80,
              MAX_PLAYER_SIZE]
  exact ⟨hyp, post_death_eat_still_processed cfg0 1 rs40 enemy80 enemy20
    hyp.1 hyp.2.1 hyp.2.2.1 hyp.2.2.2.1 hyp.2.2.2.2⟩

/-- Claim C6: after applying any combination of held movement keys in one
tick, the player's position is clamped to [0, viewport - size] on both axes,
and holding both keys of an opposite-direction pair yields zero net
displacement on that axis. -/
theorem player_clamped_and_opposites_cancel (cfg : Config) (keys : List String)
    (player : FishEntity)
    (hw : player.width ≤ cfg.innerWidth) (hh : player.height ≤ cfg.innerHeight) :
    (0 ≤ (movePlayer cfg keys player).x ∧
     (movePlayer cfg keys player).x ≤ cfg.innerWidth - player.width ∧
     0 ≤ (movePlayer cfg keys player).y ∧
     (movePlayer cfg keys player).y ≤ cfg.innerHeight - player.height) ∧
    ((keys.contains "ArrowLeft" || keys.contains "a") = true →
     (keys.contains "ArrowRight" || keys.contains "d") = true →
     0 ≤ player.x → player.x ≤ cfg.innerWidth - player.width →
     (movePlayer cfg keys player).x = player.x) ∧
    ((keys.contains "ArrowUp" || keys.contains "w") = true →
     (keys.contains "ArrowDown" || keys.contains "s") = true →
     0 ≤ player.y → player.y ≤ cfg.innerHeight - player.height →
     (movePlayer cfg keys player).y = player.y) := by
  have hwx : (0:ℚ) ≤ cfg.innerWidth - player.width := by linarith
  have hhy : (0:ℚ) ≤ cfg.innerHeight - player.height := by linarith
  refine ⟨⟨?_, ?_, ?_, ?_⟩, ?_, ?_⟩
  · exact le_max_left 0 _
  · exact max_le hwx (min_le_left _ _)
  · exact le_max_left 0 _
  · exact max_le hhy (min_le_left _ _)
  · intro hl hr hx0 hxw
    simp only [movePlayer, hl, hr, if_true]
    rw [neg_add_cancel, add_zero, min_eq_right hxw, max_eq_right hx0]
  · intro hu hd hy0 hyh
    simp only [movePlayer, hu, hd, if_true]
    rw [neg_add_cancel, add_zero, min_eq_right hyh, max_eq_right hy0]

/-- Witness for C6: all four arrow keys held by player40 at (100, 50) inside a
1920x1080 viewport. -/
theorem player_clamped_and_opposites_cancel_witness :
    (player40.width ≤ cfg0.innerWidth ∧ player40.height ≤ cfg0.innerHeight) ∧
    (0 ≤ (movePlayer cfg0 ["ArrowUp", "ArrowDown", "ArrowLeft", "ArrowRight"]
            player40).x ∧
     (movePlayer cfg0 ["ArrowUp", "ArrowDown", "ArrowLeft", "ArrowRight"]
            player40).x ≤ cfg0.innerWidth - player40.width) :=
  ⟨by norm_num [player40, cfg0],
   ⟨(player_clamped_and_opposites_cancel cfg0
       ["ArrowUp", "ArrowDown", "ArrowLeft", "ArrowRight"] player40
       (by norm_num [player40, cfg0]) (by norm_num [player40, cfg0])).1.1,
    (player_clamped_and_opposites_cancel cfg0
       ["ArrowUp", "ArrowDown", "ArrowLeft", "ArrowRight"] player40
       (by norm_num [player40, cfg0]) (by norm_num [player40, cfg0])).1.2.1⟩⟩

/-- Counterexample for C7 as stated: on a start-screen tick with the 5% roll
succeeding (roll 0 < 0.05), no particle is spawned — the particle spawn is
gated behind status = playing by the early return of update. -/
theorem particle_spawn_counterexample :
    sStart.status = GameStatus.start ∧
    rand0.particleRoll < 0.05 ∧
    (update cfg0 [] 0 rand0 sStart).particles = [] := by
  refine ⟨rfl, by norm_num [rand0], ?_⟩
  simp [update, sStart]

/-- Claim C7 (amended): the 5% particle spawn happens only on playing ticks —
on a playing tick a particle is appended exactly when the roll is below 0.05,
and on any non-playing tick the particle collection is untouched. -/
theorem particle_spawn_only_when_playing (cfg : Config) (keys : List String)
    (time : ℚ) (rand : TickRand) (s : GameState) :
    (s.status = GameStatus.playing →
      (update cfg keys time rand s).particles =
        (if rand.particleRoll < 0.05
         then movedParticles s.particles ++ [spawnParticle cfg rand.particleRand]
         else movedParticles s.particles)) ∧
    (s.status ≠ GameStatus.playing →
      (update cfg keys time rand s).particles = s.particles) := by
  constructor
  · intro h
    simp only [update, h]
    split_ifs <;> simp_all
  · intro h
    simp [update, h]

/-- Witness for C7 (amended): on a playing tick with roll 0 the spawned
particle is appended. -/
theorem particle_spawn_only_when_playing_witness :
    { sStart with status := GameStatus.playing }.status = GameStatus.playing ∧
    (update cfg0 [] 0 rand0 { sStart with status := GameStatus.playing }).particles =
      (if rand0.particleRoll < 0.05
       then movedParticles sStart.particles ++ [spawnParticle cfg0 rand0.particleRand]
       else movedParticles sStart.particles) :=
  ⟨rfl, (particle_spawn_only_when_playing cfg0 [] 0 rand0
          { sStart with status := GameStatus.playing }).1 rfl⟩

/-- A concrete leftover background particle. -/
def particle0 : Particle :=
  { id := 1, x := 2, y := 3, size := 4, speed := 5, opacity := 1/2 }

/-- A start-screen state that still holds one background particle. -/
def sWithParticle : GameState := { sStart with particles := [particle0] }

/-- Counterexample for C8 as stated: resetGame does not empty the particle
collection — a leftover particle survives the session reset. -/
theorem resetGame_keeps_particles_counterexample :
    (resetGame cfg0 1 sWithParticle).particles = [particle0] ∧
    (resetGame cfg0 1 sWithParticle).particles ≠ [] := by
  constructor <;> simp [resetGame, sWithParticle, sStart]

/-- Claim C8 (amended): resetGame resets the player to the initial entity
(width 40, height 0.6 * 40, centered), empties the enemy collection, zeroes
the score, clears the win flag and sets status playing — but leaves the
particle collection unchanged. -/
theorem resetGame_resets_session (cfg : Config) (d : ℚ) (s : GameState) :
    (resetGame cfg d s).player = initialPlayer cfg ∧
    (resetGame cfg d s).player.width = 40 ∧
    (resetGame cfg d s).player.height = 40 * 0.6 ∧
    (resetGame cfg d s).player.x = cfg.innerWidth / 2 ∧
    (resetGame cfg d s).player.y = cfg.innerHeight / 2 ∧
    (resetGame cfg d s).enemies = [] ∧
    (resetGame cfg d s).score = 0 ∧
    (resetGame cfg d s).hasWon = false ∧
    (resetGame cfg d s).status = GameStatus.playing ∧
    (resetGame cfg d s).particles = s.particles := by
  refine ⟨rfl, ?_, ?_, rfl, rfl, rfl, rfl, rfl, rfl, rfl⟩ <;>
    norm_num [resetGame, initialPlayer, INITIAL_PLAYER_SIZE]

/-- Counterexample for C10 as stated: resetGame performs no clamping — an
out-of-range difficulty 15 is copied into the session unchanged. -/
theorem resetGame_no_clamp_counterexample :
    (resetGame cfg0 15 sStart).difficulty = 15 ∧
    ¬((resetGame cfg0 15 sStart).difficulty ≤ 10) := by
  norm_num [resetGame]

/-- Claim C10 (amended): session reset copies the configured difficulty into
the session unchanged; no clamping to 1-10 happens at reset (the range is
enforced only by the UI slider). -/
theorem resetGame_difficulty_passthrough (cfg : Config) (d : ℚ) (s : GameState) :
    (resetGame cfg d s).difficulty = d := rfl

/-! ### The dangerous-enemy cap invariant -/

/-- Inductive invariant for the dangerous-fish cap: the player is at least as
wide as the food floor (15), every live enemy has nonnegative width, and the
number of dangerous enemies is within 2 + floor(difficulty / 3). -/
def DangerInv (s : GameState) : Prop :=
  15 ≤ s.player.width ∧
  (∀ e ∈ s.enemies, 0 ≤ e.width) ∧
  (dangerousCount s.enemies s.player.width : ℤ) ≤ maxDangerousAllowed s.difficulty

lemma dangerousCount_append_single (l : List FishEntity) (e : FishEntity)
    (pw : ℚ) :
    dangerousCount (l ++ [e]) pw =
      dangerousCount l pw + (if e.width > pw then 1 else 0) := by
  by_cases h : e.width > pw <;> simp [dangerousCount, List.filter_append, h]

lemma dangerousCount_mono_pw (l : List FishEntity) {pw pw' : ℚ} (h : pw ≤ pw') :
    dangerousCount l pw' ≤ dangerousCount l pw := by
  induction l with
  | nil => simp [dangerousCount]
  | cons e l ih =>
      by_cases h1 : e.width > pw'
      · have h2 : e.width > pw := lt_of_le_of_lt h h1
        simpa [dangerousCount, List.filter_cons, h1, h2] using ih
      · by_cases h2 : e.width > pw
        · simp only [dangerousCount, List.filter_cons, h1, h2]
          simpa [dangerousCount] using le_trans ih (Nat.le_succ _)
        · simpa [dangerousCount, List.filter_cons, h1, h2] using ih

lemma dangerousCount_sublist {l₁ l₂ : List FishEntity} (h : l₁.Sublist l₂)
    (pw : ℚ) : dangerousCount l₁ pw ≤ dangerousCount l₂ pw :=
  List.Sublist.length_le (List.Sublist.filter _ h)

lemma dangerousCount_map_moveEnemy (l : List FishEntity) (pw : ℚ) :
    dangerousCount (l.map moveEnemy) pw = dangerousCount l pw := by
  induction l with
  | nil => rfl
  | cons e l ih =>
      by_cases h : e.width > pw <;>
        simpa [dangerousCount, List.filter_cons, moveEnemy_width, h]
          using ih

lemma danger_cap_append (l : List FishEntity) (e : FishEntity) (pw : ℚ)
    (cap : ℤ)
    (h : (dangerousCount l pw : ℤ) < cap ∨
         ((dangerousCount l pw : ℤ) ≤ cap ∧ e.width ≤ pw)) :
    (dangerousCount (l ++ [e]) pw : ℤ) ≤ cap := by
  rw [dangerousCount_append_single]
  rcases h with h | ⟨h, hle⟩
  · split_ifs <;> push_cast <;> omega
  · rw [if_neg (not_lt.mpr hle)]
    simpa using h

lemma widths_append (l : List FishEntity) (e : FishEntity)
    (h : ∀ x ∈ l, 0 ≤ x.width) (he : 0 ≤ e.width) :
    ∀ x ∈ l ++ [e], 0 ≤ x.width := by
  intro x hx
  rcases List.mem_append.mp hx with h1 | h1
  · exact h x h1
  · simp only [List.mem_singleton] at h1
    subst h1
    exact he

lemma spawnEnemy_preserves_danger (cfg : Config) (r : SpawnRand) (diff : ℚ)
    (pw : ℚ) (enemies : List FishEntity)
    (h15 : 15 ≤ pw)
    (hsz : 0 ≤ r.sizeRoll)
    (hfd : r.foodSizeRoll < 1)
    (hcnt : (dangerousCount enemies pw : ℤ) ≤ maxDangerousAllowed diff)
    (hws : ∀ e ∈ enemies, 0 ≤ e.width) :
    (dangerousCount (spawnEnemy cfg r diff pw enemies) pw : ℤ)
        ≤ maxDangerousAllowed diff ∧
    (∀ e ∈ spawnEnemy cfg r diff pw enemies, 0 ≤ e.width) := by
  have hpw0 : (0:ℚ) < pw := lt_of_lt_of_le (by norm_num) h15
  by_cases h25 : enemies.length ≥ 25
  · simp only [spawnEnemy, if_pos h25]
    exact ⟨hcnt, hws⟩
  by_cases hbig : r.spawnRoll < 0.1 + diff * 0.04 ∧
      ((dangerousCount enemies pw : ℤ) < maxDangerousAllowed diff)
  · simp only [spawnEnemy]
    rw [if_neg h25, if_pos hbig]
    refine ⟨danger_cap_append _ _ _ _ (Or.inl hbig.2),
            widths_append _ _ hws ?_⟩
    show (0:ℚ) ≤ pw * (1.1 + r.sizeRoll * 0.8)
    nlinarith
  · simp only [spawnEnemy]
    rw [if_neg h25, if_neg hbig]
    have hfle : max 15 (pw * (0.3 + r.foodSizeRoll * 0.6)) ≤ pw := by
      refine max_le h15 ?_
      nlinarith
    refine ⟨danger_cap_append _ _ _ _ (Or.inr ⟨hcnt, hfle⟩),
            widths_append _ _ hws ?_⟩
    show (0:ℚ) ≤ max 15 (pw * (0.3 + r.foodSizeRoll * 0.6))
    exact le_trans (by norm_num) (le_max_left _ _)

lemma processEnemy_width_mono (cfg : Config) (d : ℚ) (rs : ResolveState)
    (e : FishEntity) (h : 0 ≤ e.width) :
    rs.player.width ≤ (processEnemy cfg d rs e).player.width := by
  have h01 : (0:ℚ) ≤ e.width * 0.1 := mul_nonneg h (by norm_num)
  simp only [processEnemy]
  split_ifs <;> simp_all [moveEnemy_width]

lemma processEnemy_moved (cfg : Config) (d : ℚ) (rs : ResolveState)
    (e : FishEntity) :
    (processEnemy cfg d rs e).moved = rs.moved ++ [moveEnemy e] := by
  simp only [processEnemy]
  split_ifs <;> rfl

lemma foldl_processEnemy_width_mono (cfg : Config) (d : ℚ)
    (es : List FishEntity) :
    ∀ rs : ResolveState, (∀ e ∈ es, 0 ≤ e.width) →
      rs.player.width ≤ (es.foldl (processEnemy cfg d) rs).player.width := by
  induction es with
  | nil => intro rs _; exact le_refl _
  | cons e es ih =>
      intro rs h
      refine le_trans (processEnemy_width_mono cfg d rs e (h e (by simp))) ?_
      exact ih _ (fun x hx => h x (by simp [hx]))

lemma foldl_processEnemy_moved (cfg : Config) (d : ℚ) (es : List FishEntity) :
    ∀ rs : ResolveState,
      (es.foldl (processEnemy cfg d) rs).moved = rs.moved ++ es.map moveEnemy := by
  induction es with
  | nil => intro rs; simp
  | cons e es ih =>
      intro rs
      simp [ih, processEnemy_moved]

lemma movePlayer_width (cfg : Config) (keys : List String) (p : FishEntity) :
    (movePlayer cfg keys p).width = p.width := rfl

/-- The collision/resolution pass followed by the lazy purge keeps the
dangerous-fish count within the cap: the player only grows during the pass,
enemies keep their widths, and purging only removes enemies. -/
lemma resolve_preserves_danger (cfg : Config) (d : ℚ) (p : FishEntity)
    (enemies : List FishEntity) (sc : ℤ) (st : GameStatus) (hw svm : Bool)
    (h15 : 15 ≤ p.width)
    (hcnt : (dangerousCount enemies p.width : ℤ) ≤ maxDangerousAllowed d)
    (hws : ∀ e ∈ enemies, 0 ≤ e.width) :
    15 ≤ (enemies.foldl (processEnemy cfg d)
      { player := p, score := sc, status := st, hasWon := hw,
        showVictoryModal := svm, toRemove := [], moved := [] }).player.width ∧
    (∀ e ∈ ((enemies.foldl (processEnemy cfg d)
        { player := p, score := sc, status := st, hasWon := hw,
          showVictoryModal := svm, toRemove := [], moved := [] }).moved.filter
          (fun e => !((enemies.foldl (processEnemy cfg d)
            { player := p, score := sc, status := st, hasWon := hw,
              showVictoryModal := svm, toRemove := [],
              moved := [] }).toRemove.contains e.id))), 0 ≤ e.width) ∧
    (dangerousCount ((enemies.foldl (processEnemy cfg d)
        { player := p, score := sc, status := st, hasWon := hw,
          showVictoryModal := svm, toRemove := [], moved := [] }).moved.filter
          (fun e => !((enemies.foldl (processEnemy cfg d)
            { player := p, score := sc, status := st, hasWon := hw,
              showVictoryModal := svm, toRemove := [],
              moved := [] }).toRemove.contains e.id)))
      (enemies.foldl (processEnemy cfg d)
        { player := p, score := sc, status := st, hasWon := hw,
          showVictoryModal := svm, toRemove := [], moved := [] }).player.width : ℤ)
      ≤ maxDangerousAllowed d := by
  set rs0 : ResolveState :=
    { player := p, score := sc, status := st, hasWon := hw,
      showVictoryModal := svm, toRemove := [], moved := [] } with hrs0
  set rsF := enemies.foldl (processEnemy cfg d) rs0 with hrsF
  have hmono : p.width ≤ rsF.player.width :=
    foldl_processEnemy_width_mono cfg d enemies rs0 hws
  have hmoved : rsF.moved = enemies.map moveEnemy := by
    rw [hrsF, foldl_processEnemy_moved]
    simp [hrs0]
  have hsub : (rsF.moved.filter
      (fun e => !(rsF.toRemove.contains e.id))).Sublist rsF.moved :=
    List.filter_sublist _
  refine ⟨le_trans h15 hmono, ?_, ?_⟩
  · intro e he
    have hmem : e ∈ rsF.moved := (List.mem_filter.mp he).1
    rw [hmoved] at hmem
    obtain ⟨e0, he0, rfl⟩ := List.mem_map.mp hmem
    rw [moveEnemy_width]
    exact hws e0 he0
  · calc (dangerousCount (rsF.moved.filter
          (fun e => !(rsF.toRemove.contains e.id))) rsF.player.width : ℤ)
        ≤ (dangerousCount rsF.moved rsF.player.width : ℤ) := by
          exact_mod_cast dangerousCount_sublist hsub _
      _ = (dangerousCount enemies rsF.player.width : ℤ) := by
          rw [hmoved, dangerousCount_map_moveEnemy]
      _ ≤ (dangerousCount enemies p.width : ℤ) := by
          exact_mod_cast dangerousCount_mono_pw enemies hmono
      _ ≤ maxDangerousAllowed d := hcnt

/-- Claim C5: the number of live dangerous enemies (width strictly greater
than the current player width) never exceeds 2 + floor(difficulty / 3): the
invariant holds right after resetGame and is preserved by every tick — the
spawner refuses dangerous spawns at the cap, food spawns are never dangerous,
and the player width never decreases. -/
theorem dangerous_cap_invariant :
    (∀ (cfg : Config) (d : ℚ) (s : GameState), 0 ≤ d →
        DangerInv (resetGame cfg d s)) ∧
    (∀ (cfg : Config) (keys : List String) (time : ℚ) (rand : TickRand)
        (s : GameState), DangerInv s →
        0 ≤ rand.spawnRand.sizeRoll → rand.spawnRand.foodSizeRoll < 1 →
        DangerInv (update cfg keys time rand s)) := by
  constructor
  · intro cfg d s hd
    refine ⟨by norm_num [resetGame, initialPlayer, INITIAL_PLAYER_SIZE], ?_, ?_⟩
    · intro e he
      simp [resetGame] at he
    · have h0 : (0:ℤ) ≤ ⌊d / 3⌋ := Int.floor_nonneg.mpr (by positivity)
      simp only [resetGame, dangerousCount, maxDangerousAllowed,
                 List.filter_nil, List.length_nil]
      omega
  · intro cfg keys time rand s hInv hsz hfd
    obtain ⟨h15, hws, hcnt⟩ := hInv
    by_cases hs : s.status ≠ GameStatus.playing
    · simp only [update, if_pos hs]
      exact ⟨h15, hws, hcnt⟩
    · simp only [update, if_neg hs]
      have hcond :
          ((dangerousCount
              (if time - s.lastSpawnTime > max 600 (1600 - s.difficulty * 100)
               then spawnEnemy cfg rand.spawnRand s.difficulty
                      (movePlayer cfg keys s.player).width s.enemies
               else s.enemies) (movePlayer cfg keys s.player).width : ℤ)
            ≤ maxDangerousAllowed s.difficulty) ∧
          (∀ e ∈ (if time - s.lastSpawnTime > max 600 (1600 - s.difficulty * 100)
               then spawnEnemy cfg rand.spawnRand s.difficulty
                      (movePlayer cfg keys s.player).width s.enemies
               else s.enemies), 0 ≤ e.width) := by
        split_ifs with hsp
        · exact spawnEnemy_preserves_danger cfg rand.spawnRand s.difficulty
            (movePlayer cfg keys s.player).width s.enemies h15 hsz hfd hcnt hws
        · exact ⟨hcnt, hws⟩
      exact resolve_preserves_danger cfg s.difficulty
        (movePlayer cfg keys s.player)
        (if time - s.lastSpawnTime > max 600 (1600 - s.difficulty * 100)
         then spawnEnemy cfg rand.spawnRand s.difficulty
                (movePlayer cfg keys s.player).width s.enemies
         else s.enemies)
        s.score s.status s.hasWon s.showVictoryModal h15 hcond.1 hcond.2

/-- The start fixture switched into the playing state. -/
def sPlay : GameState := { sStart with status := GameStatus.playing }

/-- Witness for C5: the invariant holds for the concrete playing state and is
preserved through a tick whose spawn interval has elapsed (a spawn occurs). -/
theorem dangerous_cap_invariant_witness :
    (DangerInv sPlay ∧ 0 ≤ rand0.spawnRand.sizeRoll ∧
     rand0.spawnRand.foodSizeRoll < 1) ∧
    DangerInv (update cfg0 [] 2000 rand0 sPlay) := by
  have h1 : DangerInv sPlay := by
    refine ⟨?_, ?_, ?_⟩
    · norm_num [sPlay, sStart, player40]
    · intro e he
      simp [sPlay, sStart] at he
    · norm_num [sPlay, sStart, dangerousCount, maxDangerousAllowed]
  exact ⟨⟨h1, by norm_num [rand0], by norm_num [rand0]⟩,
         dangerous_cap_invariant.2 cfg0 [] 2000 rand0 sPlay h1
           (by norm_num [rand0]) (by norm_num [rand0])⟩
